import Mathlib

/-!
Verification model of the IPAM coordination layer (`pkg/ipam/allocator.go`):
the ownership ledger, the expiration-timer table, the blacklist-retry
allocation loop, dual-stack orchestration with compensating rollback, and the
expiration-watcher guard. Family allocator backends are external collaborators
and are modelled as response oracles: pure response functions for specific
allocation and release, and a per-family stream of responses for
`AllocateNext` (held in the coordinator state so that successive backend
requests consume it in order).
-/

set_option maxHeartbeats 1000000

namespace IPAM

/-- Addresses (`net.IP`): an IPv4 address is four octets, an IPv6 address is
kept as its canonical textual form. -/
inductive IP where
  | v4 (a b c d : Nat)
  | v6 (s : String)
deriving DecidableEq, Repr

/-- Canonical string form of an address, mirroring `ip.String()`. -/
def ipString : IP → String
  | IP.v4 a b c d =>
      toString a ++ "." ++ toString b ++ "." ++ toString c ++ "." ++ toString d
  | IP.v6 s => s

/-- Family test mirroring `ip.To4() != nil`. -/
def ipIsV4 : IP → Bool
  | IP.v4 _ _ _ _ => true
  | IP.v6 _ => false

/-- Splitting a character list on the dot separator. -/
def splitDots : List Char → List (List Char)
  | [] => [[]]
  | c :: rest =>
    if c = '.' then [] :: splitDots rest
    else
      match splitDots rest with
      | [] => [[c]]
      | p :: ps => (c :: p) :: ps

/-- Value of a digit run. -/
def digitsVal (cs : List Char) : Nat :=
  cs.foldl (fun a c => a * 10 + (c.toNat - 48)) 0

/-- Decimal numeral to number, failing on empty or non-digit runs. -/
def strToNat (cs : List Char) : Option Nat :=
  if cs = [] then none
  else if cs.all Char.isDigit then some (digitsVal cs)
  else none

/-- One dotted-quad component: a canonical decimal numeral of value at most 255. -/
def parseOctet (cs : List Char) : Option Nat :=
  match strToNat cs with
  | some n => if n ≤ 255 ∧ (toString n).toList = cs then some n else none
  | none => none

/-- Model of `net.ParseIP`: canonical dotted-quad strings parse as IPv4,
strings containing a colon parse as IPv6 text, anything else fails. -/
def parseIP (s : String) : Option IP :=
  match splitDots s.toList with
  | [a, b, c, d] =>
    match parseOctet a, parseOctet b, parseOctet c, parseOctet d with
    | some x, some y, some z, some w => some (IP.v4 x y z w)
    | _, _, _, _ => if s.toList.contains ':' then some (IP.v6 s) else none
  | _ => if s.toList.contains ':' then some (IP.v6 s) else none

/-- Caller-supplied descriptor (`types.Metadata`), at minimum the owner name. -/
structure Metadata where
  owner : String
deriving DecidableEq, Repr

/-- The distinct error values the coordinator can produce. -/
inductive IPAMError where
  | blacklisted (ip owner : String)
  | ipv4Disabled
  | ipv6Disabled
  | unknownFamily (family : String)
  | allocatorNotAvailable (family : String)
  | backend (msg : String)
  | timerAlreadyRegistered
  | invalidIPOrOwner (arg : String)
deriving DecidableEq, Repr

/-- The allocation result handed back to callers: the address plus the
expiration-timer token (empty until a timer is registered). -/
structure AllocationResult where
  ip : IP
  expirationUUID : String
deriving DecidableEq, Repr

/-- Oracle for one family allocator backend (an external collaborator):
response functions for specific allocation (per sync flag) and release
(`none` = success, `some msg` = the backend's error), plus the data its
`Dump` returns. The backend's stream of responses to `AllocateNext` lives in
the coordinator state (`v4script` / `v6script`). -/
structure Backend where
  allocSpecific : Bool → IP → Option String
  release : IP → Option String
  dumpMap : List (String × String)
  dumpStatus : String

/-- Immutable configuration of one coordinator: optional per-family backends
and the blacklist. -/
structure IPAMConfig where
  v4 : Option Backend
  v6 : Option Backend
  blacklist : List IP

/-- Mutable coordinator state: the ownership ledger (`ipam.owner`), the
expiration-timer table (`ipam.expirationTimers`), the two backend response
streams, and the counter feeding the unique-token source. -/
structure IPAMState where
  owner : List (String × String)
  expirationTimers : List (String × String)
  v4script : List (Except String IP)
  v6script : List (Except String IP)
  nextUUID : Nat
deriving Repr

/-- Go map lookup over the association-list representation. -/
def mapLookup : List (String × String) → String → Option String
  | [], _ => none
  | (k, v) :: rest, key => if k = key then some v else mapLookup rest key

/-- Go map assignment: replace the binding if the key is present, else append. -/
def mapInsert : List (String × String) → String → String → List (String × String)
  | [], key, val => [(key, val)]
  | (k, v) :: rest, key, val =>
      if k = key then (key, val) :: rest else (k, v) :: mapInsert rest key val

/-- Go `delete` on a map: drop every binding of the key. -/
def mapErase : List (String × String) → String → List (String × String)
  | [], _ => []
  | (k, v) :: rest, key =>
      if k = key then mapErase rest key else (k, v) :: mapErase rest key

/-- Blacklist membership (`ipam.blacklist.Contains`). -/
def blContains (bl : List IP) (ip : IP) : Bool :=
  bl.contains ip

/-- Specific allocation, from `allocateIP` (lines 84-135): blacklist check
first, then dispatch by family, surface backend errors unchanged, and record
ownership only on backend success. -/
def allocateIP (cfg : IPAMConfig) (st : IPAMState) (ip : IP)
    (needSyncUpstream : Bool) (md : Metadata) : Option IPAMError × IPAMState :=
  if blContains cfg.blacklist ip then
    (some (IPAMError.blacklisted (ipString ip) md.owner), st)
  else if ipIsV4 ip then
    match cfg.v4 with
    | none => (some IPAMError.ipv4Disabled, st)
    | some b =>
      match b.allocSpecific needSyncUpstream ip with
      | some e => (some (IPAMError.backend e), st)
      | none => (none, { st with owner := mapInsert st.owner (ipString ip) md.owner })
  else
    match cfg.v6 with
    | none => (some IPAMError.ipv6Disabled, st)
    | some b =>
      match b.allocSpecific needSyncUpstream ip with
      | some e => (some (IPAMError.backend e), st)
      | none => (none, { st with owner := mapInsert st.owner (ipString ip) md.owner })

/-- The retry loop of `allocateNextFamily` (lines 155-179): draw the next
response from the backend stream; a backend error returns immediately; a
non-blacklisted address is recorded under the owner and returned; a
blacklisted one is recorded under the marked owner name and the loop retries.
An exhausted stream stands for the backend reporting pool exhaustion. -/
def allocNextLoop (bl : List IP) (ownerName : String) :
    List (Except String IP) → List (String × String) →
    Except IPAMError IP × List (String × String) × List (Except String IP)
  | [], ownerMap => (Except.error (IPAMError.backend "pool exhausted"), ownerMap, [])
  | Except.error e :: rest, ownerMap => (Except.error (IPAMError.backend e), ownerMap, rest)
  | Except.ok ip :: rest, ownerMap =>
    if blContains bl ip then
      allocNextLoop bl ownerName rest
        (mapInsert ownerMap (ipString ip) (ownerName ++ " (blacklisted)"))
    else
      (Except.ok ip, mapInsert ownerMap (ipString ip) ownerName, rest)

/-- Arbitrary allocation in one family, from `allocateNextFamily`
(lines 137-180): family dispatch (unknown family rejected), absent allocator
rejected, then the blacklist-retry loop over that family's response stream. -/
def allocateNextFamily (cfg : IPAMConfig) (family : String) (needSyncUpstream : Bool)
    (md : Metadata) (st : IPAMState) : Except IPAMError AllocationResult × IPAMState :=
  if family = "ipv6" then
    match cfg.v6 with
    | none => (Except.error (IPAMError.allocatorNotAvailable "ipv6"), st)
    | some _ =>
      match allocNextLoop cfg.blacklist md.owner st.v6script st.owner with
      | (r, ownerMap, script) =>
        (r.map (fun ip => { ip := ip, expirationUUID := "" }),
         { st with owner := ownerMap, v6script := script })
  else if family = "ipv4" then
    match cfg.v4 with
    | none => (Except.error (IPAMError.allocatorNotAvailable "ipv4"), st)
    | some _ =>
      match allocNextLoop cfg.blacklist md.owner st.v4script st.owner with
      | (r, ownerMap, script) =>
        (r.map (fun ip => { ip := ip, expirationUUID := "" }),
         { st with owner := ownerMap, v4script := script })
  else
    (Except.error (IPAMError.unknownFamily family), st)

/-- Release of one address, from `releaseIPLocked` (lines 258-289): family
dispatch, backend release first; only on backend success are the ledger entry
and any expiration-timer entry for the address removed. -/
def releaseIPLocked (cfg : IPAMConfig) (st : IPAMState) (ip : IP) :
    Option IPAMError × IPAMState :=
  if ipIsV4 ip then
    match cfg.v4 with
    | none => (some IPAMError.ipv4Disabled, st)
    | some b =>
      match b.release ip with
      | some e => (some (IPAMError.backend e), st)
      | none =>
        (none, { st with owner := mapErase st.owner (ipString ip),
                         expirationTimers := mapErase st.expirationTimers (ipString ip) })
  else
    match cfg.v6 with
    | none => (some IPAMError.ipv6Disabled, st)
    | some b =>
      match b.release ip with
      | some e => (some (IPAMError.backend e), st)
      | none =>
        (none, { st with owner := mapErase st.owner (ipString ip),
                         expirationTimers := mapErase st.expirationTimers (ipString ip) })

/-- The error component of `releaseIPLocked`, which depends only on the
address and the configured backends, never on the coordinator state. -/
def releaseErr (cfg : IPAMConfig) (ip : IP) : Option IPAMError :=
  if ipIsV4 ip then
    match cfg.v4 with
    | none => some IPAMError.ipv4Disabled
    | some b =>
      match b.release ip with
      | some e => some (IPAMError.backend e)
      | none => none
  else
    match cfg.v6 with
    | none => some IPAMError.ipv6Disabled
    | some b =>
      match b.release ip with
      | some e => some (IPAMError.backend e)
      | none => none

/-- Dual-stack orchestration, from `AllocateNext` (lines 207-227): IPv6 first
when requested and configured, then IPv4; on an IPv4 failure after an IPv6
success the IPv6 address is handed to `ReleaseIP` (its error discarded)
before the IPv4 error is returned. -/
def AllocateNext (cfg : IPAMConfig) (family : String) (md : Metadata) (st : IPAMState) :
    (Option AllocationResult × Option AllocationResult × Option IPAMError) × IPAMState :=
  if (family = "ipv6" ∨ family = "") ∧ cfg.v6.isSome = true then
    match allocateNextFamily cfg "ipv6" true md st with
    | (Except.error e, st1) => ((none, none, some e), st1)
    | (Except.ok r6, st1) =>
      if (family = "ipv4" ∨ family = "") ∧ cfg.v4.isSome = true then
        match allocateNextFamily cfg "ipv4" true md st1 with
        | (Except.error e, st2) =>
            ((none, some r6, some e), (releaseIPLocked cfg st2 r6.ip).2)
        | (Except.ok r4, st2) => ((some r4, some r6, none), st2)
      else ((none, some r6, none), st1)
  else
    if (family = "ipv4" ∨ family = "") ∧ cfg.v4.isSome = true then
      match allocateNextFamily cfg "ipv4" true md st with
      | (Except.error e, st1) => ((none, none, some e), st1)
      | (Except.ok r4, st1) => ((some r4, none, none), st1)
    else ((none, none, none), st)

/-- Timer registration, from `StartExpirationTimer` (lines 369-407 up to the
goroutine spawn): reject when a timer entry already exists, otherwise record a
fresh token for the address and return it. -/
def StartExpirationTimer (cfg : IPAMConfig) (st : IPAMState) (ip : IP)
    (timeout : Nat) : Except IPAMError String × IPAMState :=
  match mapLookup st.expirationTimers (ipString ip) with
  | some _ => (Except.error IPAMError.timerAlreadyRegistered, st)
  | none =>
    (Except.ok ("uuid-" ++ toString st.nextUUID),
     { st with expirationTimers :=
                 mapInsert st.expirationTimers (ipString ip) ("uuid-" ++ toString st.nextUUID),
               nextUUID := st.nextUUID + 1 })

/-- The check-and-act body of the watcher goroutine spawned by
`StartExpirationTimer` (lines 381-404), executed when it fires after its
sleep: release only when the timer table still holds exactly the token this
watcher was spawned with; the release error is swallowed (logged only). -/
def expirationWatcherFire (cfg : IPAMConfig) (st : IPAMState) (ip : IP)
    (allocationUUID : String) : IPAMState :=
  match mapLookup st.expirationTimers (ipString ip) with
  | some currentUUID =>
    if currentUUID = allocationUUID then (releaseIPLocked cfg st ip).2 else st
  | none => st

/-- The rollback block of `AllocateNextWithExpiration` (lines 243-248):
release the IPv4 result then the IPv6 result, ignoring release errors. -/
def rollbackReleases (cfg : IPAMConfig) (o4 o6 : Option IP) (st : IPAMState) : IPAMState :=
  let st1 := match o4 with
    | some ip => (releaseIPLocked cfg st ip).2
    | none => st
  match o6 with
  | some ip => (releaseIPLocked cfg st1 ip).2
  | none => st1

/-- Allocation with lease, from `AllocateNextWithExpiration` (lines 232-256):
allocate, then for a non-zero timeout start a timer for the IPv4 result and
then the IPv6 result; on any timer failure release every allocated address of
this call before returning the timer error. -/
def AllocateNextWithExpiration (cfg : IPAMConfig) (family : String) (timeout : Nat)
    (md : Metadata) (st : IPAMState) :
    (Option AllocationResult × Option AllocationResult × Option IPAMError) × IPAMState :=
  match AllocateNext cfg family md st with
  | ((_, _, some e), st1) => ((none, none, some e), st1)
  | ((r4, r6, none), st1) =>
    if timeout = 0 then ((r4, r6, none), st1)
    else
      match r4 with
      | none =>
        match r6 with
        | none => ((none, none, none), st1)
        | some a6 =>
          match StartExpirationTimer cfg st1 a6.ip timeout with
          | (Except.error e, st2) =>
            ((none, some a6, some e), rollbackReleases cfg none (some a6.ip) st2)
          | (Except.ok tok, st2) =>
            ((none, some { a6 with expirationUUID := tok }, none), st2)
      | some a4 =>
        match StartExpirationTimer cfg st1 a4.ip timeout with
        | (Except.error e, st2) =>
          ((some a4, r6, some e),
           rollbackReleases cfg (some a4.ip) (r6.map AllocationResult.ip) st2)
        | (Except.ok tok4, st2) =>
          match r6 with
          | none => ((some { a4 with expirationUUID := tok4 }, none, none), st2)
          | some a6 =>
            match StartExpirationTimer cfg st2 a6.ip timeout with
            | (Except.error e, st3) =>
              ((some { a4 with expirationUUID := tok4 }, some a6, some e),
               rollbackReleases cfg (some a4.ip) (some a6.ip) st3)
            | (Except.ok tok6, st3) =>
              ((some { a4 with expirationUUID := tok4 },
                some { a6 with expirationUUID := tok6 }, none), st3)

/-- Reverse lookup, from `lookupIPsByOwner` (lines 47-60): every ledger key
owned by the name whose key parses back to an address. -/
def lookupIPsByOwner (st : IPAMState) (ownerName : String) : List IP :=
  st.owner.filterMap (fun kv => if kv.2 = ownerName then parseIP kv.1 else none)

/-- The release loop of `ReleaseIPString` (lines 315-320): attempt every
candidate; a failure overwrites the error accumulator, a success leaves it. -/
def releaseLoop (cfg : IPAMConfig) :
    List IP → IPAMState → Option IPAMError → Option IPAMError × IPAMState
  | [], st, acc => (acc, st)
  | ip :: rest, st, acc =>
    releaseLoop cfg rest (releaseIPLocked cfg st ip).2
      (match (releaseIPLocked cfg st ip).1 with
       | some e => some e
       | none => acc)

/-- Release by address or owner, from `ReleaseIPString` (lines 302-322): a
parseable argument releases that address; otherwise every address owned by
the argument is attempted best-effort; no match at all is an error. -/
def ReleaseIPString (cfg : IPAMConfig) (st : IPAMState) (releaseArg : String) :
    Option IPAMError × IPAMState :=
  match parseIP releaseArg with
  | none =>
    let ips := lookupIPsByOwner st releaseArg
    if ips.isEmpty then (some (IPAMError.invalidIPOrOwner releaseArg), st)
    else releaseLoop cfg ips st none
  | some ip => releaseLoop cfg [ip] st none

/-- Dump, from `Dump` (lines 325-357): per configured family, the backend's
allocation map annotated with ledger owners (empty when the ledger has no
entry) and a prefixed status string; the status line joins the two per-family
strings with a comma and falls back to "Not running" when the join is empty. -/
def Dump (cfg : IPAMConfig) (st : IPAMState) :
    Option (List (String × String)) × Option (List (String × String)) × String :=
  let p4 : Option (List (String × String)) × String := match cfg.v4 with
    | none => (none, "")
    | some b =>
      (some (b.dumpMap.map (fun kv => (kv.1, (mapLookup st.owner kv.1).getD ""))),
       "IPv4: " ++ b.dumpStatus)
  let p6 : Option (List (String × String)) × String := match cfg.v6 with
    | none => (none, "")
    | some b =>
      (some (b.dumpMap.map (fun kv => (kv.1, (mapLookup st.owner kv.1).getD ""))),
       "IPv6: " ++ b.dumpStatus)
  let joined := p4.2 ++ ", " ++ p6.2
  (p4.1, p6.1, if joined = "" then "Not running" else joined)

/-- Ledger after recording a sequence of blacklisted draws: each one is
inserted under the owner name suffixed with the blacklist marker. -/
def markBlacklist (ownerName : String) (pre : List IP) (m : List (String × String)) :
    List (String × String) :=
  pre.foldl (fun acc b => mapInsert acc (ipString b) (ownerName ++ " (blacklisted)")) m

/-- Backend whose specific-allocate and release calls always succeed. -/
def okBackend : Backend := ⟨fun _ _ => none, fun _ => none, [], "ok"⟩

/-- Backend whose release call always fails. -/
def busyBackend : Backend := ⟨fun _ _ => none, fun _ => some "backend busy", [], "ok"⟩

/-- Backend that refuses to release exactly the address 10.0.0.2. -/
def secondBusyBackend : Backend :=
  ⟨fun _ _ => none, fun ip => if ip = IP.v4 10 0 0 2 then some "busy" else none, [], "ok"⟩

/-- IPv6 backend that refuses every release. -/
def refuse6Backend : Backend := ⟨fun _ _ => none, fun _ => some "release refused", [], "ok"⟩

/-- Coordinator with only a fully working IPv4 backend. -/
def v4OkConfig : IPAMConfig := ⟨some okBackend, none, []⟩

/-- Coordinator with an IPv4 backend whose releases fail. -/
def v4BusyConfig : IPAMConfig := ⟨some busyBackend, none, []⟩

/-- Coordinator with working backends for both families. -/
def bothOkConfig : IPAMConfig := ⟨some okBackend, some okBackend, []⟩

/-- Coordinator whose IPv4 backend refuses to release 10.0.0.2. -/
def ownerRelConfig : IPAMConfig := ⟨some secondBusyBackend, none, []⟩

/-- Coordinator whose IPv6 backend refuses releases (for the rollback path). -/
def rollbackCexConfig : IPAMConfig := ⟨some okBackend, some refuse6Backend, []⟩

/-- Coordinator with two free IPv4 addresses of which 10.0.0.5 is blacklisted. -/
def retryConfig : IPAMConfig := ⟨some okBackend, none, [IP.v4 10 0 0 5]⟩

/-- Coordinator with no backends at all and 10.0.0.5 blacklisted. -/
def blkOnlyConfig : IPAMConfig := ⟨none, none, [IP.v4 10 0 0 5]⟩

/-- Coordinator with both backends and 10.0.0.5 blacklisted. -/
def blkBothConfig : IPAMConfig := ⟨some okBackend, some okBackend, [IP.v4 10 0 0 5]⟩

/-- Coordinator with only an IPv6 backend. -/
def v6OnlyConfig : IPAMConfig := ⟨none, some okBackend, []⟩

/-- Fresh coordinator state. -/
def emptyState : IPAMState := ⟨[], [], [], [], 0⟩

/-- State after 10.0.0.1 was released and reallocated with the new timer
token "uuid-1", while a watcher spawned with the stale "uuid-0" is pending. -/
def raceState : IPAMState :=
  ⟨[("10.0.0.1", "pod-new")], [("10.0.0.1", "uuid-1")], [], [], 2⟩

/-- State whose IPv4 stream is exhausted while IPv6 hands out fd00::1. -/
def rollbackCexState : IPAMState :=
  ⟨[], [], [Except.error "v4 exhausted"], [Except.ok (IP.v6 "fd00::1")], 0⟩

/-- State whose IPv4 stream is exhausted while IPv6 hands out fd00::2. -/
def rollbackOkState : IPAMState :=
  ⟨[], [], [Except.error "v4 gone"], [Except.ok (IP.v6 "fd00::2")], 0⟩

/-- State whose IPv4 stream hands out the blacklisted 10.0.0.5, then 10.0.0.9. -/
def retryState : IPAMState :=
  ⟨[], [], [Except.ok (IP.v4 10 0 0 5), Except.ok (IP.v4 10 0 0 9)], [], 0⟩

/-- State with two allocated addresses, one of them under an active timer. -/
def relState : IPAMState :=
  ⟨[("10.0.0.7", "pod-r"), ("10.0.0.8", "pod-s")], [("10.0.0.7", "uuid-3")], [], [], 4⟩

/-- State where pod-a owns 10.0.0.1 and 10.0.0.2. -/
def ownerRelState : IPAMState :=
  ⟨[("10.0.0.1", "pod-a"), ("10.0.0.2", "pod-a")], [], [], [], 0⟩

/-- State where the next IPv4 address handed out, 10.0.0.3, already carries a
timer entry, so starting its expiration timer must fail. -/
def expState : IPAMState :=
  ⟨[], [("10.0.0.3", "uuid-9")], [Except.ok (IP.v4 10 0 0 3)], [], 10⟩

/-- State after the allocation step of the expiration scenario. -/
def expMidState : IPAMState :=
  ⟨[("10.0.0.3", "pod")], [("10.0.0.3", "uuid-9")], [], [], 10⟩

/-- State with untouched nonempty backend streams for both families. -/
def skipState : IPAMState :=
  ⟨[], [], [Except.ok (IP.v4 10 0 0 4)], [Except.ok (IP.v6 "fd00::9")], 0⟩

/-- Lookup after insertion: the inserted key maps to the new value, every
other key is untouched. -/
theorem mapLookup_insert (m : List (String × String)) (k v k' : String) :
    mapLookup (mapInsert m k v) k' = if k = k' then some v else mapLookup m k' := by
  induction m with
  | nil => simp [mapInsert, mapLookup]
  | cons kv rest ih =>
    rcases kv with ⟨a, b⟩
    by_cases h1 : a = k
    · by_cases h2 : k = k' <;> simp [mapInsert, mapLookup, h1, h2]
    · by_cases h2 : k = k' <;> by_cases h3 : a = k' <;>
        simp_all [mapInsert, mapLookup]

/-- Lookup after deletion: the deleted key is gone, every other key is
untouched. -/
theorem mapLookup_erase (m : List (String × String)) (k k' : String) :
    mapLookup (mapErase m k) k' = if k' = k then none else mapLookup m k' := by
  induction m with
  | nil => simp [mapErase, mapLookup]
  | cons kv rest ih =>
    rcases kv with ⟨a, b⟩
    by_cases h1 : a = k
    · by_cases h2 : k' = k <;> by_cases h3 : a = k' <;>
        simp_all [mapErase, mapLookup]
    · by_cases h2 : k' = k <;> by_cases h3 : a = k' <;>
        simp_all [mapErase, mapLookup]

/-- Deletion can only lose bindings: an absent key stays absent. -/
theorem mapLookup_erase_of_none (m : List (String × String)) (k k' : String)
    (h : mapLookup m k' = none) : mapLookup (mapErase m k) k' = none := by
  rw [mapLookup_erase]
  by_cases h2 : k' = k <;> simp [h2, h]

/-- The error component of releaseIPLocked and the state it produces, as a
function of `releaseErr`: failure leaves the state untouched, success removes
the address from the ledger and the timer table. -/
theorem releaseIPLocked_eq (cfg : IPAMConfig) (st : IPAMState) (ip : IP) :
    releaseIPLocked cfg st ip =
      (releaseErr cfg ip,
       match releaseErr cfg ip with
       | none => { st with owner := mapErase st.owner (ipString ip),
                           expirationTimers := mapErase st.expirationTimers (ipString ip) }
       | some _ => st) := by
  cases hf : ipIsV4 ip
  · cases h6 : cfg.v6 with
    | none => simp [releaseIPLocked, releaseErr, hf, h6]
    | some b =>
      cases hr : b.release ip <;> simp [releaseIPLocked, releaseErr, hf, h6, hr]
  · cases h4 : cfg.v4 with
    | none => simp [releaseIPLocked, releaseErr, hf, h4]
    | some b =>
      cases hr : b.release ip <;> simp [releaseIPLocked, releaseErr, hf, h4, hr]

/-- The release error never depends on the coordinator state. -/
theorem releaseIPLocked_fst (cfg : IPAMConfig) (st : IPAMState) (ip : IP) :
    (releaseIPLocked cfg st ip).1 = releaseErr cfg ip := by
  rw [releaseIPLocked_eq]

/-- Closed form of the blacklist-retry loop when the stream yields a run of
blacklisted addresses followed by a non-blacklisted one. -/
theorem allocNextLoop_success (bl : List IP) (o : String) (pre : List IP)
    (hpre : ∀ b ∈ pre, blContains bl b = true) (ip : IP)
    (hip : blContains bl ip = false) (rest : List (Except String IP))
    (m : List (String × String)) :
    allocNextLoop bl o (pre.map Except.ok ++ Except.ok ip :: rest) m =
      (Except.ok ip, mapInsert (markBlacklist o pre m) (ipString ip) o, rest) := by
  induction pre generalizing m with
  | nil => simp [allocNextLoop, hip, markBlacklist]
  | cons b pre ih =>
    have hb := hpre b (List.mem_cons_self b pre)
    simp only [List.map_cons, List.cons_append, allocNextLoop, hb, if_true, markBlacklist,
      List.foldl_cons]
    exact ih (fun x hx => hpre x (List.mem_cons_of_mem _ hx)) _

/-- Closed form of the blacklist-retry loop when the stream yields a run of
blacklisted addresses followed by a backend error: the loop stops there. -/
theorem allocNextLoop_error (bl : List IP) (o : String) (pre : List IP)
    (hpre : ∀ b ∈ pre, blContains bl b = true) (e : String)
    (rest : List (Except String IP)) (m : List (String × String)) :
    allocNextLoop bl o (pre.map Except.ok ++ Except.error e :: rest) m =
      (Except.error (IPAMError.backend e), markBlacklist o pre m, rest) := by
  induction pre generalizing m with
  | nil => simp [allocNextLoop, markBlacklist]
  | cons b pre ih =>
    have hb := hpre b (List.mem_cons_self b pre)
    simp only [List.map_cons, List.cons_append, allocNextLoop, hb, if_true, markBlacklist,
      List.foldl_cons]
    exact ih (fun x hx => hpre x (List.mem_cons_of_mem _ hx)) _

/-- Recording blacklisted draws does not touch other keys. -/
theorem markBlacklist_lookup_not_mem (o : String) (pre : List IP)
    (m : List (String × String)) (k : String) (h : ∀ b ∈ pre, ipString b ≠ k) :
    mapLookup (markBlacklist o pre m) k = mapLookup m k := by
  induction pre generalizing m with
  | nil => rfl
  | cons b pre ih =>
    simp only [markBlacklist, List.foldl_cons] at *
    rw [ih _ (fun x hx => h x (List.mem_cons_of_mem _ hx)), mapLookup_insert,
      if_neg (h b (List.mem_cons_self b pre))]

/-- One unfolding step of the marked-owner recording. -/
theorem markBlacklist_cons (o : String) (b : IP) (pre : List IP)
    (m : List (String × String)) :
    markBlacklist o (b :: pre) m =
      markBlacklist o pre (mapInsert m (ipString b) (o ++ " (blacklisted)")) := rfl

/-- Every key drawn as blacklisted ends up bound to the marked owner name. -/
theorem markBlacklist_lookup_mem (o : String) (pre : List IP)
    (m : List (String × String)) (k : String) (h : k ∈ pre.map ipString) :
    mapLookup (markBlacklist o pre m) k = some (o ++ " (blacklisted)") := by
  induction pre generalizing m with
  | nil => simp at h
  | cons b pre ih =>
    by_cases hk : k ∈ pre.map ipString
    · rw [markBlacklist_cons]
      exact ih _ hk
    · have hkb : ipString b = k := by
        rcases List.mem_map.mp h with ⟨x, hx, hxe⟩
        rcases List.mem_cons.mp hx with hx1 | hx2
        · rw [hx1] at hxe; exact hxe
        · exact absurd (hxe ▸ List.mem_map_of_mem ipString hx2) hk
      rw [markBlacklist_cons,
        markBlacklist_lookup_not_mem o pre _ k
          (fun x hx he => hk (he ▸ List.mem_map_of_mem ipString hx)),
        mapLookup_insert, if_pos hkb]

/-- Closed form of the best-effort release loop: the state folds every
release in order, the error is the last failing release's error, with the
accumulator surviving successful releases. -/
theorem releaseLoop_spec (cfg : IPAMConfig) (ips : List IP) (st : IPAMState)
    (acc : Option IPAMError) :
    releaseLoop cfg ips st acc =
      (ips.foldl (fun a i => match releaseErr cfg i with
                             | some x => some x
                             | none => a) acc,
       ips.foldl (fun s i => (releaseIPLocked cfg s i).2) st) := by
  induction ips generalizing st acc with
  | nil => rfl
  | cons ip rest ih =>
    simp only [releaseLoop, List.foldl_cons, releaseIPLocked_fst]
    exact ih _ _

/-- Unfolding of allocateNextFamily for IPv4 with a present allocator. -/
theorem allocateNextFamily_v4_eq (cfg : IPAMConfig) (b : Backend) (h : cfg.v4 = some b)
    (flag : Bool) (md : Metadata) (st : IPAMState) :
    allocateNextFamily cfg "ipv4" flag md st =
      ((allocNextLoop cfg.blacklist md.owner st.v4script st.owner).1.map
         (fun ip => { ip := ip, expirationUUID := "" }),
       { st with owner := (allocNextLoop cfg.blacklist md.owner st.v4script st.owner).2.1,
                 v4script := (allocNextLoop cfg.blacklist md.owner st.v4script st.owner).2.2 }) := by
  simp only [allocateNextFamily]
  rw [if_pos trivial, h]
  rcases hL : allocNextLoop cfg.blacklist md.owner st.v4script st.owner with ⟨r, o, s⟩
  simp [hL]

/-- Unfolding of allocateNextFamily for IPv6 with a present allocator. -/
theorem allocateNextFamily_v6_eq (cfg : IPAMConfig) (b : Backend) (h : cfg.v6 = some b)
    (flag : Bool) (md : Metadata) (st : IPAMState) :
    allocateNextFamily cfg "ipv6" flag md st =
      ((allocNextLoop cfg.blacklist md.owner st.v6script st.owner).1.map
         (fun ip => { ip := ip, expirationUUID := "" }),
       { st with owner := (allocNextLoop cfg.blacklist md.owner st.v6script st.owner).2.1,
                 v6script := (allocNextLoop cfg.blacklist md.owner st.v6script st.owner).2.2 }) := by
  simp only [allocateNextFamily]
  rw [if_pos trivial, h]

/-- An IPv6 allocation attempt never touches the IPv4 backend stream. -/
theorem allocateNextFamily_v6_preserves_v4script (cfg : IPAMConfig) (flag : Bool)
    (md : Metadata) (st : IPAMState) :
    ((allocateNextFamily cfg "ipv6" flag md st).2).v4script = st.v4script := by
  simp only [allocateNextFamily]
  rw [if_pos trivial]
  cases cfg.v6 with
  | none => rfl
  | some b =>
    rcases hL : allocNextLoop cfg.blacklist md.owner st.v6script st.owner with ⟨r, o, s⟩
    simp [hL]

/-- C1: anti-stale-reclaim guard. A watcher spawned with token
`allocationUUID` for an address releases it only when the timer table still
maps the address to exactly that token; when no timer entry exists, or the
entry holds a different token (the address was released and reallocated with
a new timer), the watcher performs no release and leaves the whole
coordinator state — ledger and timer table included — unchanged. -/
theorem claim_watcher_anti_stale_guard (cfg : IPAMConfig) (st : IPAMState)
    (ip : IP) (allocationUUID : String) :
    (mapLookup st.expirationTimers (ipString ip) = none →
       expirationWatcherFire cfg st ip allocationUUID = st) ∧
    (∀ t, mapLookup st.expirationTimers (ipString ip) = some t →
       t ≠ allocationUUID → expirationWatcherFire cfg st ip allocationUUID = st) ∧
    (mapLookup st.expirationTimers (ipString ip) = some allocationUUID →
       expirationWatcherFire cfg st ip allocationUUID = (releaseIPLocked cfg st ip).2) := by
  refine ⟨fun h => ?_, fun t h hne => ?_, fun h => ?_⟩
  · simp [expirationWatcherFire, h]
  · simp [expirationWatcherFire, h, hne]
  · simp [expirationWatcherFire, h]

/-- Witness for C1 at the reallocation race of the spec: address 10.0.0.1 was
released and reallocated with the fresh token "uuid-1"; the stale watcher
holding "uuid-0" fires and must not evict the new allocation. -/
theorem claim_watcher_anti_stale_guard_witness :
    expirationWatcherFire v4OkConfig raceState (IP.v4 10 0 0 1) "uuid-0" = raceState ∧
    mapLookup raceState.owner "10.0.0.1" = some "pod-new" :=
  ⟨(claim_watcher_anti_stale_guard v4OkConfig raceState (IP.v4 10 0 0 1) "uuid-0").2.1
      "uuid-1" rfl (by decide), rfl⟩

/-- C3 evaluation: with neither family configured, the status produced by
Dump is ", " — the join of two empty per-family strings — and never
"Not running", because the joined string is nonempty even when both sides
are empty; with one family configured the status is the prefixed backend
status joined with the empty other side. -/
theorem claim_dump_status (bl : List IP) (st : IPAMState) (b : Backend) :
    Dump ⟨none, none, bl⟩ st = (none, none, ", ") ∧
    (Dump ⟨some b, none, bl⟩ st).2.2 = "IPv4: " ++ b.dumpStatus ++ ", " := by
  constructor
  · rfl
  · simp only [Dump]
    rw [if_neg ?ne, String.append_empty]
    case ne =>
      intro hcon
      have hlen := congrArg String.length hcon
      simp [String.length_append] at hlen
      exact absurd hlen.2 (by decide)

/-- C5: a blacklisted address always fails specific allocation with the
Blacklisted error — whatever the address family and even when that family's
allocator is absent, so Blacklisted takes precedence over the disabled-family
errors — the state, ledger included, is unchanged, and the outcome is
independent of the configured backends (the backend is never consulted). -/
theorem claim_blacklisted_allocate_specific (cfg cfg2 : IPAMConfig)
    (st : IPAMState) (ip : IP) (flag : Bool) (md : Metadata)
    (hb : blContains cfg.blacklist ip = true) :
    allocateIP cfg st ip flag md =
      (some (IPAMError.blacklisted (ipString ip) md.owner), st) ∧
    (cfg2.blacklist = cfg.blacklist →
      allocateIP cfg2 st ip flag md = allocateIP cfg st ip flag md) := by
  constructor
  · simp [allocateIP, hb]
  · intro h2
    simp [allocateIP, hb, h2]

/-- Witness for C5: 10.0.0.5 is blacklisted in a coordinator with no
allocators at all — the error is Blacklisted, not IPv4Disabled, the state is
unchanged, and swapping in working backends changes nothing. -/
theorem claim_blacklisted_allocate_specific_witness :
    allocateIP blkOnlyConfig emptyState (IP.v4 10 0 0 5) true ⟨"pod-a"⟩ =
      (some (IPAMError.blacklisted "10.0.0.5" "pod-a"), emptyState) ∧
    allocateIP blkBothConfig emptyState (IP.v4 10 0 0 5) true ⟨"pod-a"⟩ =
      allocateIP blkOnlyConfig emptyState (IP.v4 10 0 0 5) true ⟨"pod-a"⟩ :=
  ⟨(claim_blacklisted_allocate_specific blkOnlyConfig blkBothConfig emptyState
      (IP.v4 10 0 0 5) true ⟨"pod-a"⟩ (by decide)).1,
   (claim_blacklisted_allocate_specific blkOnlyConfig blkBothConfig emptyState
      (IP.v4 10 0 0 5) true ⟨"pod-a"⟩ (by decide)).2 rfl⟩

/-- C9: AllocateNext silently skips a family that is not requested or whose
allocator is not configured: an unrecognized family filter yields nil
results, nil error and an unchanged state, and so does a requested family
with no configured allocator. -/
theorem claim_allocate_next_skip (cfg : IPAMConfig) (family : String)
    (md : Metadata) (st : IPAMState) :
    (family ≠ "ipv4" → family ≠ "ipv6" → family ≠ "" →
       AllocateNext cfg family md st = ((none, none, none), st)) ∧
    (family = "ipv4" → cfg.v4 = none →
       AllocateNext cfg family md st = ((none, none, none), st)) ∧
    (family = "ipv6" → cfg.v6 = none →
       AllocateNext cfg family md st = ((none, none, none), st)) ∧
    (family = "" → cfg.v4 = none → cfg.v6 = none →
       AllocateNext cfg family md st = ((none, none, none), st)) := by
  refine ⟨fun h4 h6 he => ?_, fun hf h4 => ?_, fun hf h6 => ?_, fun hf h4 h6 => ?_⟩
  · simp only [AllocateNext]
    rw [if_neg (fun hc => hc.1.elim h6 he), if_neg (fun hc => hc.1.elim h4 he)]
  · subst hf
    simp only [AllocateNext]
    rw [if_neg (fun hc => hc.1.elim (fun h => absurd h (by decide)) (fun h => absurd h (by decide))),
      if_neg (fun hc => by rw [h4] at hc; exact absurd hc.2 (by decide))]
  · subst hf
    simp only [AllocateNext]
    rw [if_neg (fun hc => by rw [h6] at hc; exact absurd hc.2 (by decide)),
      if_neg (fun hc => hc.1.elim (fun h => absurd h (by decide)) (fun h => absurd h (by decide)))]
  · subst hf
    simp only [AllocateNext]
    rw [if_neg (fun hc => by rw [h6] at hc; exact absurd hc.2 (by decide)),
      if_neg (fun hc => by rw [h4] at hc; exact absurd hc.2 (by decide))]

/-- Witness for C9: AllocateNext("bogus") on a dual-stack coordinator does
nothing, and AllocateNext("ipv4") with no IPv4 allocator does nothing —
backend streams included. -/
theorem claim_allocate_next_skip_witness :
    AllocateNext bothOkConfig "bogus" ⟨"pod"⟩ skipState = ((none, none, none), skipState) ∧
    AllocateNext v6OnlyConfig "ipv4" ⟨"pod"⟩ skipState = ((none, none, none), skipState) :=
  ⟨(claim_allocate_next_skip bothOkConfig "bogus" ⟨"pod"⟩ skipState).1
      (by decide) (by decide) (by decide),
   (claim_allocate_next_skip v6OnlyConfig "ipv4" ⟨"pod"⟩ skipState).2.1 rfl rfl⟩

/-- C10: StartExpirationTimer's only precondition is the absence of a timer
entry for the address: it then succeeds with the fresh token, touches neither
the ledger nor any backend (the same call on any backends and any ledger
contents gives the same outcome), records the token in the timer table and
advances the token counter — even for an address that was never allocated. -/
theorem claim_start_timer_independent (cfg : IPAMConfig) (st : IPAMState)
    (ip : IP) (timeout : Nat)
    (h : mapLookup st.expirationTimers (ipString ip) = none) :
    (StartExpirationTimer cfg st ip timeout).1 =
      Except.ok ("uuid-" ++ toString st.nextUUID) ∧
    ((StartExpirationTimer cfg st ip timeout).2).owner = st.owner ∧
    mapLookup ((StartExpirationTimer cfg st ip timeout).2).expirationTimers
      (ipString ip) = some ("uuid-" ++ toString st.nextUUID) ∧
    ((StartExpirationTimer cfg st ip timeout).2).nextUUID = st.nextUUID + 1 ∧
    (∀ cfg2 own2, StartExpirationTimer cfg2 { st with owner := own2 } ip timeout =
       (Except.ok ("uuid-" ++ toString st.nextUUID),
        { st with owner := own2,
                  expirationTimers := mapInsert st.expirationTimers (ipString ip)
                    ("uuid-" ++ toString st.nextUUID),
                  nextUUID := st.nextUUID + 1 })) := by
  refine ⟨?_, ?_, ?_, ?_, fun cfg2 own2 => ?_⟩ <;>
    simp [StartExpirationTimer, h, mapLookup_insert]

/-- Witness for C10: on a fresh coordinator whose ledger has never seen
10.0.0.1, the timer registers fine and returns the token "uuid-0". -/
theorem claim_start_timer_independent_witness :
    (StartExpirationTimer bothOkConfig emptyState (IP.v4 10 0 0 1) 7).1 =
      Except.ok "uuid-0" ∧
    mapLookup ((StartExpirationTimer bothOkConfig emptyState (IP.v4 10 0 0 1) 7).2).expirationTimers
      "10.0.0.1" = some "uuid-0" :=
  ⟨(claim_start_timer_independent bothOkConfig emptyState (IP.v4 10 0 0 1) 7 rfl).1,
   (claim_start_timer_independent bothOkConfig emptyState (IP.v4 10 0 0 1) 7 rfl).2.2.1⟩

/-- C6: release atomicity. When releaseIPLocked succeeds, the address's
ledger entry and any expiration-timer entry are removed while every other
key of both tables is untouched; when the backend release fails the error is
returned and the whole state is exactly as before the call; an absent family
allocator yields the family-disabled error, again with the state untouched. -/
theorem claim_release_atomicity (cfg : IPAMConfig) (st : IPAMState) (ip : IP) :
    ((releaseIPLocked cfg st ip).1 = none →
       mapLookup ((releaseIPLocked cfg st ip).2).owner (ipString ip) = none ∧
       mapLookup ((releaseIPLocked cfg st ip).2).expirationTimers (ipString ip) = none ∧
       (∀ k, k ≠ ipString ip →
          mapLookup ((releaseIPLocked cfg st ip).2).owner k = mapLookup st.owner k ∧
          mapLookup ((releaseIPLocked cfg st ip).2).expirationTimers k =
            mapLookup st.expirationTimers k)) ∧
    (∀ e, (releaseIPLocked cfg st ip).1 = some e → (releaseIPLocked cfg st ip).2 = st) ∧
    (ipIsV4 ip = true → cfg.v4 = none →
       releaseIPLocked cfg st ip = (some IPAMError.ipv4Disabled, st)) ∧
    (ipIsV4 ip = false → cfg.v6 = none →
       releaseIPLocked cfg st ip = (some IPAMError.ipv6Disabled, st)) := by
  refine ⟨fun h => ?_, fun e h => ?_, fun hf h4 => ?_, fun hf h6 => ?_⟩
  · rw [releaseIPLocked_fst] at h
    rw [releaseIPLocked_eq, h]
    refine ⟨mapLookup_erase _ _ _ ▸ if_pos rfl, mapLookup_erase _ _ _ ▸ if_pos rfl,
      fun k hk => ⟨?_, ?_⟩⟩ <;> rw [mapLookup_erase, if_neg hk]
  · rw [releaseIPLocked_fst] at h
    rw [releaseIPLocked_eq, h]
  · simp [releaseIPLocked, hf, h4]
  · simp [releaseIPLocked, hf, h6]

/-- Witness for C6: releasing 10.0.0.7 with a working backend clears its
ledger and timer entries while leaving 10.0.0.8 owned; with a backend whose
release fails, the state is exactly the one before the call. -/
theorem claim_release_atomicity_witness :
    mapLookup ((releaseIPLocked v4OkConfig relState (IP.v4 10 0 0 7)).2).owner
      "10.0.0.7" = none ∧
    mapLookup ((releaseIPLocked v4OkConfig relState (IP.v4 10 0 0 7)).2).expirationTimers
      "10.0.0.7" = none ∧
    mapLookup ((releaseIPLocked v4OkConfig relState (IP.v4 10 0 0 7)).2).owner
      "10.0.0.8" = some "pod-s" ∧
    (releaseIPLocked v4BusyConfig relState (IP.v4 10 0 0 7)).2 = relState :=
  ⟨((claim_release_atomicity v4OkConfig relState (IP.v4 10 0 0 7)).1 rfl).1,
   ((claim_release_atomicity v4OkConfig relState (IP.v4 10 0 0 7)).1 rfl).2.1,
   (((claim_release_atomicity v4OkConfig relState (IP.v4 10 0 0 7)).1 rfl).2.2
      "10.0.0.8" (by decide)).1.trans rfl,
   (claim_release_atomicity v4BusyConfig relState (IP.v4 10 0 0 7)).2.1
      (IPAMError.backend "backend busy") rfl⟩

/-- C7: release by address or owner. A parseable argument releases exactly
that address (the outcome is that of releaseIPLocked on it); an argument
that is neither an address nor an owner of any ledger entry fails with the
invalid-argument error and no state change; otherwise every owned address is
attempted in order regardless of earlier failures, the final state folds all
the releases, and the returned error is the error of the last failing
release — none when every release succeeds. -/
theorem claim_release_by_address_or_owner (cfg : IPAMConfig) (st : IPAMState)
    (arg : String) :
    (∀ ip, parseIP arg = some ip →
       ReleaseIPString cfg st arg = releaseIPLocked cfg st ip) ∧
    (parseIP arg = none → lookupIPsByOwner st arg = [] →
       ReleaseIPString cfg st arg = (some (IPAMError.invalidIPOrOwner arg), st)) ∧
    (parseIP arg = none → lookupIPsByOwner st arg ≠ [] →
       ReleaseIPString cfg st arg =
         ((lookupIPsByOwner st arg).foldl
            (fun a i => match releaseErr cfg i with
                        | some x => some x
                        | none => a) none,
          (lookupIPsByOwner st arg).foldl
            (fun s i => (releaseIPLocked cfg s i).2) st)) := by
  refine ⟨fun ip h => ?_, fun hp he => ?_, fun hp hne => ?_⟩
  · simp only [ReleaseIPString, h, releaseLoop_spec, List.foldl_cons, List.foldl_nil,
      releaseIPLocked_fst]
    cases hR : releaseErr cfg ip <;>
      rw [releaseIPLocked_eq, hR]
  · simp only [ReleaseIPString, hp, he]
    rfl
  · cases hL : lookupIPsByOwner st arg with
    | nil => exact absurd hL hne
    | cons a l =>
      simp only [ReleaseIPString, hp, hL, List.isEmpty_cons, releaseLoop_spec]
      rfl

/-- Witness for C7 at the spec's two-address scenario: pod-a owns 10.0.0.1
and 10.0.0.2, the backend refuses to release the second; both are attempted,
the first is removed from the ledger, and the returned error is the second
(last) release's error. -/
theorem claim_release_by_address_or_owner_witness :
    ReleaseIPString ownerRelConfig ownerRelState "pod-a" =
      (some (IPAMError.backend "busy"),
       ⟨[("10.0.0.2", "pod-a")], [], [], [], 0⟩) :=
  (claim_release_by_address_or_owner ownerRelConfig ownerRelState "pod-a").2.2
    rfl (by decide)

/-- C4: the blacklist-retry loop of AllocateNextInFamily, for either valid
family with its allocator present. When the backend stream yields a run of
blacklisted addresses followed by a non-blacklisted one, that address is
recorded under metadata.Owner and returned, the stream resumes after it, and
each blacklisted draw stays recorded in the final ledger under the owner name
suffixed with the blacklist marker — never released; when the run is followed
by a backend error, the loop stops at once with that error and the remaining
stream is untouched. -/
theorem claim_blacklist_retry_loop (cfg : IPAMConfig) (md : Metadata)
    (flag : Bool) (pre : List IP) (rest : List (Except String IP))
    (st : IPAMState) (hpre : ∀ b ∈ pre, blContains cfg.blacklist b = true) :
    (∀ b4 ip, cfg.v4 = some b4 → blContains cfg.blacklist ip = false →
       st.v4script = pre.map Except.ok ++ Except.ok ip :: rest →
       allocateNextFamily cfg "ipv4" flag md st =
         (Except.ok ⟨ip, ""⟩,
          { st with owner := mapInsert (markBlacklist md.owner pre st.owner)
                      (ipString ip) md.owner,
                    v4script := rest })) ∧
    (∀ b4 e, cfg.v4 = some b4 →
       st.v4script = pre.map Except.ok ++ Except.error e :: rest →
       allocateNextFamily cfg "ipv4" flag md st =
         (Except.error (IPAMError.backend e),
          { st with owner := markBlacklist md.owner pre st.owner,
                    v4script := rest })) ∧
    (∀ b6 ip, cfg.v6 = some b6 → blContains cfg.blacklist ip = false →
       st.v6script = pre.map Except.ok ++ Except.ok ip :: rest →
       allocateNextFamily cfg "ipv6" flag md st =
         (Except.ok ⟨ip, ""⟩,
          { st with owner := mapInsert (markBlacklist md.owner pre st.owner)
                      (ipString ip) md.owner,
                    v6script := rest })) ∧
    (∀ b6 e, cfg.v6 = some b6 →
       st.v6script = pre.map Except.ok ++ Except.error e :: rest →
       allocateNextFamily cfg "ipv6" flag md st =
         (Except.error (IPAMError.backend e),
          { st with owner := markBlacklist md.owner pre st.owner,
                    v6script := rest })) ∧
    (∀ b, b ∈ pre →
       mapLookup (markBlacklist md.owner pre st.owner) (ipString b) =
         some (md.owner ++ " (blacklisted)")) := by
  refine ⟨fun b4 ip h4 hip hs => ?_, fun b4 e h4 hs => ?_,
    fun b6 ip h6 hip hs => ?_, fun b6 e h6 hs => ?_, fun b hb => ?_⟩
  · rw [allocateNextFamily_v4_eq cfg b4 h4, hs,
      allocNextLoop_success cfg.blacklist md.owner pre hpre ip hip rest]
    rfl
  · rw [allocateNextFamily_v4_eq cfg b4 h4, hs,
      allocNextLoop_error cfg.blacklist md.owner pre hpre e rest]
    rfl
  · rw [allocateNextFamily_v6_eq cfg b6 h6, hs,
      allocNextLoop_success cfg.blacklist md.owner pre hpre ip hip rest]
    rfl
  · rw [allocateNextFamily_v6_eq cfg b6 h6, hs,
      allocNextLoop_error cfg.blacklist md.owner pre hpre e rest]
    rfl
  · exact markBlacklist_lookup_mem md.owner pre st.owner (ipString b)
      (List.mem_map_of_mem ipString hb)

/-- Witness for C4 at the spec's scenario: the backend hands out the
blacklisted 10.0.0.5 and then 10.0.0.9; the result is 10.0.0.9 owned by
pod-a, and the ledger additionally holds 10.0.0.5 under
"pod-a (blacklisted)". -/
theorem claim_blacklist_retry_loop_witness :
    allocateNextFamily retryConfig "ipv4" true ⟨"pod-a"⟩ retryState =
      (Except.ok ⟨IP.v4 10 0 0 9, ""⟩,
       ⟨[("10.0.0.5", "pod-a (blacklisted)"), ("10.0.0.9", "pod-a")],
        [], [], [], 0⟩) :=
  (claim_blacklist_retry_loop retryConfig ⟨"pod-a"⟩ true [IP.v4 10 0 0 5] []
      retryState (by decide)).1 okBackend (IP.v4 10 0 0 9) rfl (by decide) rfl

/-- C2 counterexample: with an IPv6 backend that refuses the rollback
release, AllocateNext's IPv4 stage fails after the IPv6 stage succeeded, the
IPv4 error is returned — yet the IPv6 address fd00::1 is still present in
the ledger, so the claim's "released (removed from ledger and backend)" does
not hold as stated. -/
theorem claim_dualstack_rollback_cex :
    (AllocateNext rollbackCexConfig "" ⟨"pod"⟩ rollbackCexState).1.2.2 =
      some (IPAMError.backend "v4 exhausted") ∧
    (AllocateNext rollbackCexConfig "" ⟨"pod"⟩ rollbackCexState).1.2.1 =
      some ⟨IP.v6 "fd00::1", ""⟩ ∧
    mapLookup ((AllocateNext rollbackCexConfig "" ⟨"pod"⟩ rollbackCexState).2).owner
      "fd00::1" = some "pod" := ⟨rfl, rfl, rfl⟩

/-- C2 (amended): dual-stack ordering and rollback. When IPv6 is requested
and configured and its allocation fails, that error is returned at once and
the IPv4 backend stream is never consulted — IPv6 is attempted before IPv4.
When (with the empty filter) the IPv6 stage succeeds and the subsequent IPv4
stage fails, ReleaseIP is invoked on the already-allocated IPv6 address
before the IPv4 error is returned: when the backend release succeeds the
address is removed from ledger and backend, while a backend release failure
leaves the ledger entry in place and is discarded. -/
theorem claim_dualstack_order_rollback (cfg : IPAMConfig) (family : String)
    (md : Metadata) (st : IPAMState) :
    ((family = "ipv6" ∨ family = "") → cfg.v6.isSome = true →
      ∀ e st1, allocateNextFamily cfg "ipv6" true md st = (Except.error e, st1) →
        AllocateNext cfg family md st = ((none, none, some e), st1) ∧
        st1.v4script = st.v4script) ∧
    (cfg.v6.isSome = true → cfg.v4.isSome = true →
      ∀ r6 st1 e st2,
        allocateNextFamily cfg "ipv6" true md st = (Except.ok r6, st1) →
        allocateNextFamily cfg "ipv4" true md st1 = (Except.error e, st2) →
        AllocateNext cfg "" md st =
          ((none, some r6, some e), (releaseIPLocked cfg st2 r6.ip).2) ∧
        ((releaseIPLocked cfg st2 r6.ip).1 = none →
          mapLookup ((AllocateNext cfg "" md st).2).owner (ipString r6.ip) = none)) := by
  constructor
  · intro hf h6 e st1 h
    constructor
    · simp only [AllocateNext]
      rw [if_pos (And.intro hf h6), h]
    · have hp := allocateNextFamily_v6_preserves_v4script cfg true md st
      rw [h] at hp
      exact hp
  · intro h6 h4 r6 st1 e st2 hA6 hA4
    have hAll : AllocateNext cfg "" md st =
        ((none, some r6, some e), (releaseIPLocked cfg st2 r6.ip).2) := by
      simp only [AllocateNext, hA6, hA4]
      rw [if_pos (And.intro (Or.inr trivial) h6),
        if_pos (And.intro (Or.inr trivial) h4)]
    refine ⟨hAll, fun hrel => ?_⟩
    rw [releaseIPLocked_fst] at hrel
    rw [hAll, releaseIPLocked_eq, hrel]
    rw [mapLookup_erase, if_pos rfl]

/-- Witness for the amended C2: with working backends, an exhausted IPv4
stream and an IPv6 stream handing out fd00::2, AllocateNext removes the
IPv6 address from the ledger again during the rollback. -/
theorem claim_dualstack_order_rollback_witness :
    mapLookup ((AllocateNext bothOkConfig "" ⟨"pod"⟩ rollbackOkState).2).owner
      "fd00::2" = none :=
  ((claim_dualstack_order_rollback bothOkConfig "" ⟨"pod"⟩ rollbackOkState).2
      rfl rfl ⟨IP.v6 "fd00::2", ""⟩
      ⟨[("fd00::2", "pod")], [], [Except.error "v4 gone"], [], 0⟩
      (IPAMError.backend "v4 gone")
      ⟨[("fd00::2", "pod")], [], [], [], 0⟩ rfl rfl).2 rfl

/-- C8: full rollback of AllocateNextWithExpiration. Once the allocation
stage has succeeded: a zero timeout starts no timer and returns allocation
results and state unchanged; with a non-zero timeout, whichever of the timer
starts fails — on the IPv4 result, on the IPv6 result after the IPv4 timer
was already started, or on the IPv6 result of an IPv6-only allocation —
every address allocated by the call undergoes the rollback release before
the timer error is returned, and when both backend releases succeed neither
address remains in the ledger. -/
theorem claim_expiration_full_rollback (cfg : IPAMConfig) (family : String)
    (timeout : Nat) (md : Metadata) (st : IPAMState)
    (r4 r6 : Option AllocationResult) (st1 : IPAMState)
    (hA : AllocateNext cfg family md st = ((r4, r6, none), st1)) :
    (timeout = 0 →
       AllocateNextWithExpiration cfg family timeout md st = ((r4, r6, none), st1)) ∧
    (timeout ≠ 0 →
      (∀ a4 e st2, r4 = some a4 →
         StartExpirationTimer cfg st1 a4.ip timeout = (Except.error e, st2) →
         AllocateNextWithExpiration cfg family timeout md st =
           ((some a4, r6, some e),
            rollbackReleases cfg (some a4.ip) (r6.map AllocationResult.ip) st2)) ∧
      (∀ a4 tok4 st2 a6 e st3, r4 = some a4 → r6 = some a6 →
         StartExpirationTimer cfg st1 a4.ip timeout = (Except.ok tok4, st2) →
         StartExpirationTimer cfg st2 a6.ip timeout = (Except.error e, st3) →
         AllocateNextWithExpiration cfg family timeout md st =
           ((some { a4 with expirationUUID := tok4 }, some a6, some e),
            rollbackReleases cfg (some a4.ip) (some a6.ip) st3) ∧
         (releaseErr cfg a4.ip = none → releaseErr cfg a6.ip = none →
           mapLookup ((AllocateNextWithExpiration cfg family timeout md st).2).owner
             (ipString a4.ip) = none ∧
           mapLookup ((AllocateNextWithExpiration cfg family timeout md st).2).owner
             (ipString a6.ip) = none)) ∧
      (∀ a6 e st2, r4 = none → r6 = some a6 →
         StartExpirationTimer cfg st1 a6.ip timeout = (Except.error e, st2) →
         AllocateNextWithExpiration cfg family timeout md st =
           ((none, some a6, some e), rollbackReleases cfg none (some a6.ip) st2))) := by
  constructor
  · intro hz
    subst hz
    simp only [AllocateNextWithExpiration, hA]
    rw [if_pos trivial]
  · intro htz
    refine ⟨fun a4 e st2 h4 hS => ?_, fun a4 tok4 st2 a6 e st3 h4 h6 hS4 hS6 => ?_,
      fun a6 e st2 h4 h6 hS => ?_⟩
    · subst h4
      simp only [AllocateNextWithExpiration, hA, if_neg htz, hS]
    · subst h4; subst h6
      have hAll : AllocateNextWithExpiration cfg family timeout md st =
          ((some { a4 with expirationUUID := tok4 }, some a6, some e),
           rollbackReleases cfg (some a4.ip) (some a6.ip) st3) := by
        simp only [AllocateNextWithExpiration, hA, if_neg htz, hS4, hS6]
      refine ⟨hAll, fun hr4 hr6 => ?_⟩
      rw [hAll]
      simp only [rollbackReleases]
      rw [releaseIPLocked_eq cfg st3 a4.ip, hr4]
      rw [releaseIPLocked_eq _ _ a6.ip, hr6]
      constructor
      · exact mapLookup_erase_of_none _ _ _
          (mapLookup_erase _ _ _ ▸ if_pos rfl)
      · rw [mapLookup_erase, if_pos rfl]
    · subst h4; subst h6
      simp only [AllocateNextWithExpiration, hA, if_neg htz, hS]

/-- Witness for C8: an IPv4-only allocation hands out 10.0.0.3, which
already carries a timer entry; starting its timer fails, the rollback
releases the fresh allocation (clearing its ledger entry and even the stale
timer entry), and the timer error is returned; with timeout zero the same
call starts no timer and keeps the allocation. -/
theorem claim_expiration_full_rollback_witness :
    AllocateNextWithExpiration v4OkConfig "ipv4" 5 ⟨"pod"⟩ expState =
      ((some ⟨IP.v4 10 0 0 3, ""⟩, none, some IPAMError.timerAlreadyRegistered),
       ⟨[], [], [], [], 10⟩) ∧
    AllocateNextWithExpiration v4OkConfig "ipv4" 0 ⟨"pod"⟩ expState =
      ((some ⟨IP.v4 10 0 0 3, ""⟩, none, none), expMidState) :=
  ⟨((claim_expiration_full_rollback v4OkConfig "ipv4" 5 ⟨"pod"⟩ expState
        (some ⟨IP.v4 10 0 0 3, ""⟩) none expMidState rfl).2 (by decide)).1
      ⟨IP.v4 10 0 0 3, ""⟩ IPAMError.timerAlreadyRegistered expMidState rfl rfl,
   (claim_expiration_full_rollback v4OkConfig "ipv4" 0 ⟨"pod"⟩ expState
        (some ⟨IP.v4 10 0 0 3, ""⟩) none expMidState rfl).1 rfl⟩

end IPAM
